import Mathlib

/-!
Verification of the tachyon-drive-node-fs core: the `CryptoBufferProcessor`
(src/serializers/index.ts), the `FileStorageDriver` (src/drivers/FileStorageDriver.ts)
and the `FileUpdateNotify` notifier (src/notify/FileUpdateNotify.ts), shallowly
embedded as pure Lean functions over explicit state records.

Byte buffers (`Buffer`) are `List Nat`; filesystem contents are `Option` values
(`none` = the file does not exist); the single-threaded Node event loop is modelled
by exposing the states at each `await` point, at which watcher callbacks may run.
-/

/-- Byte buffer (Node `Buffer`): a list of byte values. -/
abbrev Buf := List Nat

/-- Event kinds delivered by `fs.watch` to a watcher callback. -/
inductive WatchEvent where
  | rename
  | change
deriving DecidableEq

/-- Filesystem errors surfaced by `fs/promises` calls in the model.
`enoent` is the missing-file error (`unlink`/`readFile` on a nonexistent path). -/
inductive FsError where
  | enoent
deriving DecidableEq

namespace CryptoBufferProcessor

/-- Modelled from the external `node:crypto` library (not repository code):
the key derivation `crypto.createHash('sha256').update(keyMaterial).digest('base64').slice(0, 32)`
of `CryptoBufferProcessor.getKey`. The concrete mixing function stands in for
SHA-256/base64; the claims depend only on it being a deterministic function of the
key material producing the 32-byte key that both `preStore` and `postHydrate`
of one instance share. -/
def deriveKey (keyMaterial : Buf) : Buf :=
  (List.range 32).map fun i =>
    (keyMaterial.foldl (fun a b => (a * 131 + b + 3) % 251) 7 + 11 * i) % 256

/-- Modelled from the external `node:crypto` library: the AES-256-CTR keystream byte
at position `i` under `key` and nonce `iv`, as used inside GCM mode. The concrete
mixing function stands in for AES; the claims depend only on determinism. -/
def keystreamByte (key iv : Buf) (i : Nat) : Nat :=
  (key.foldl (fun a b => (a * 31 + b) % 257) 5 +
    iv.foldl (fun a b => (a * 29 + b) % 263) 3 + 17 * i) % 256

/-- GCM counter-mode body: XOR the buffer with the keystream starting at position `i`.
Encryption and decryption are the same operation (XOR is an involution), exactly as
in CTR mode. -/
def ctrXor (key iv : Buf) : Nat → Buf → Buf
  | _, [] => []
  | i, b :: bs => (b ^^^ keystreamByte key iv i) :: ctrXor key iv (i + 1) bs

/-- Modelled from the external `node:crypto` library: the 16-byte GCM authentication
tag (GHASH-derived) over `key`, `iv` and the ciphertext, returned by
`cipher.getAuthTag()` and recomputed during decryption. The concrete mixing function
stands in for GHASH; the claims depend only on determinism and the 16-byte length. -/
def ghash (key iv ct : Buf) : Buf :=
  (List.range 16).map fun i =>
    (key.foldl (fun a b => (a * 37 + b) % 269) 1 +
      iv.foldl (fun a b => (a * 41 + b) % 271) 2 +
      ct.foldl (fun a b => (a * 43 + b) % 277) 4 + 19 * i) % 256

/-- Modelled from the external `node:crypto` library: the authentication-tag lengths
`decipher.setAuthTag` accepts for GCM when no `authTagLength` option was given
(16, 15, 14, 13, 12, 8 or 4 bytes); any other length raises
`ERR_CRYPTO_INVALID_AUTH_TAG` before any data is processed. -/
def validTagLength (n : Nat) : Bool :=
  n == 16 || n == 15 || n == 14 || n == 13 || n == 12 || n == 8 || n == 4

/-- Errors with which `decryptPromise`'s promise can reject, per `node:crypto` GCM
semantics: `invalidIV` (`createDecipheriv` rejects an empty GCM IV), `invalidTagLength`
(`setAuthTag` rejects a tag length outside `validTagLength`), and `authFailed`
(the tag comparison at `decipher.end`, the authentication error). -/
inductive GcmError where
  | invalidIV
  | invalidTagLength
  | authFailed
deriving DecidableEq

/-- `CryptoBufferProcessor.encryptPromise`: derive the key, encrypt `plaintext` under
the fresh 12-byte `iv` (`crypto.randomBytes(12)`, passed explicitly here), and return
the envelope `Buffer.concat([iv, cipher.getAuthTag(), ...encrypted])`. -/
def encryptPromise (keyMaterial iv plaintext : Buf) : Buf :=
  iv ++ ghash (deriveKey keyMaterial) iv (ctrXor (deriveKey keyMaterial) iv 0 plaintext)
    ++ ctrXor (deriveKey keyMaterial) iv 0 plaintext

/-- `CryptoBufferProcessor.decryptPromise`: split the envelope as
`iv = buffer.subarray(0, 12)`, `tag = buffer.subarray(12, 28)`,
`encrypted = buffer.subarray(28)`, then run the library decipher:
`createDecipheriv` rejects an empty IV, `setAuthTag` rejects an invalid tag length,
the final tag comparison (against the first `tag.length` bytes of the recomputed tag,
since GCM compares exactly the supplied truncated tag) rejects with the
authentication error, and otherwise the CTR-decrypted plaintext resolves. -/
def decryptPromise (keyMaterial buffer : Buf) : Except GcmError Buf :=
  if (buffer.take 12).length = 0 then
    Except.error GcmError.invalidIV
  else if validTagLength ((buffer.drop 12).take 16).length = false then
    Except.error GcmError.invalidTagLength
  else if (buffer.drop 12).take 16 ≠
      List.take ((buffer.drop 12).take 16).length
        (ghash (deriveKey keyMaterial) (buffer.take 12) (buffer.drop 28)) then
    Except.error GcmError.authFailed
  else
    Except.ok (ctrXor (deriveKey keyMaterial) (buffer.take 12) 0 (buffer.drop 28))

/-- `CryptoBufferProcessor.preStore` delegates to `encryptPromise`. -/
def preStore (keyMaterial iv plaintext : Buf) : Buf :=
  encryptPromise keyMaterial iv plaintext

/-- `CryptoBufferProcessor.postHydrate` delegates to `decryptPromise`. -/
def postHydrate (keyMaterial buffer : Buf) : Except GcmError Buf :=
  decryptPromise keyMaterial buffer

theorem ghash_length (key iv ct : Buf) : (ghash key iv ct).length = 16 := by
  simp [ghash]

theorem ctrXor_ctrXor (key iv : Buf) (bs : Buf) :
    ∀ i, ctrXor key iv i (ctrXor key iv i bs) = bs := by
  induction bs with
  | nil => intro i; rfl
  | cons b bs ih =>
    intro i
    simp [ctrXor, ih, Nat.xor_cancel_right]

theorem envelope_take_12 (iv rest : Buf) (hiv : iv.length = 12) :
    (iv ++ rest).take 12 = iv :=
  List.take_left' hiv

theorem envelope_drop_12 (iv rest : Buf) (hiv : iv.length = 12) :
    (iv ++ rest).drop 12 = rest :=
  List.drop_left' hiv

/-- C1: for every byte buffer (including the empty buffer), decrypting the envelope
produced by encrypting that buffer under the same derived key — `preStore` with its
fresh 12-byte IV, then `postHydrate` — recovers the original buffer. -/
theorem postHydrate_preStore_roundtrip (keyMaterial plaintext iv : Buf)
    (hiv : iv.length = 12) :
    postHydrate keyMaterial (preStore keyMaterial iv plaintext) = Except.ok plaintext := by
  have htag := ghash_length (deriveKey keyMaterial) iv (ctrXor (deriveKey keyMaterial) iv 0 plaintext)
  have hTake : List.take 16
        (ghash (deriveKey keyMaterial) iv (ctrXor (deriveKey keyMaterial) iv 0 plaintext)) =
      ghash (deriveKey keyMaterial) iv (ctrXor (deriveKey keyMaterial) iv 0 plaintext) := by
    rw [← htag]
    exact List.take_length _
  unfold postHydrate preStore encryptPromise decryptPromise
  rw [List.append_assoc, envelope_take_12 _ _ hiv, envelope_drop_12 _ _ hiv,
    List.take_left' htag]
  have hdrop : (iv ++ (ghash (deriveKey keyMaterial) iv (ctrXor (deriveKey keyMaterial) iv 0 plaintext) ++
      ctrXor (deriveKey keyMaterial) iv 0 plaintext)).drop 28 =
      ctrXor (deriveKey keyMaterial) iv 0 plaintext := by
    have h1 : (28 : Nat) = 12 + 16 := by decide
    rw [h1, ← List.drop_drop, envelope_drop_12 _ _ hiv, List.drop_left' htag]
  rw [hdrop, hiv, htag, hTake]
  rw [if_neg (by decide : ¬((12 : Nat) = 0))]
  rw [if_neg (by decide : ¬(validTagLength 16 = false))]
  rw [if_neg (by simp :
    ¬(ghash (deriveKey keyMaterial) iv (ctrXor (deriveKey keyMaterial) iv 0 plaintext) ≠
      ghash (deriveKey keyMaterial) iv (ctrXor (deriveKey keyMaterial) iv 0 plaintext)))]
  rw [ctrXor_ctrXor]

/-- C1 witness: the round-trip evaluated at a concrete key, IV and plaintext. -/
theorem postHydrate_preStore_roundtrip_witness :
    (List.replicate 12 0).length = 12 ∧
      postHydrate [9] (preStore [9] (List.replicate 12 0) [104, 105]) =
        Except.ok [104, 105] :=
  ⟨by decide, postHydrate_preStore_roundtrip [9] [104, 105] (List.replicate 12 0) (by decide)⟩

/-- C2 counterexample: the empty buffer is shorter than 28 bytes, yet `postHydrate`
rejects it with the invalid-IV error raised by `createDecipheriv` (an error unrelated
to authentication), not with the authentication error. -/
theorem postHydrate_empty_buffer_invalidIV :
    postHydrate [9] [] = Except.error GcmError.invalidIV ∧
      GcmError.invalidIV ≠ GcmError.authFailed := by
  constructor
  · rfl
  · decide

/-- C2 amended: an envelope shorter than 28 bytes never yields any nonempty
plaintext: its ciphertext region is empty, so `postHydrate` either rejects — with the
invalid-IV error (IV region empty), the invalid-tag-length error (tag region of a
length `setAuthTag` refuses), or the authentication error — or, when the truncated
tag happens to verify, resolves with the empty buffer. -/
theorem postHydrate_short_buffer (keyMaterial buffer : Buf) (h : buffer.length < 28) :
    postHydrate keyMaterial buffer = Except.ok [] ∨
      postHydrate keyMaterial buffer = Except.error GcmError.invalidIV ∨
      postHydrate keyMaterial buffer = Except.error GcmError.invalidTagLength ∨
      postHydrate keyMaterial buffer = Except.error GcmError.authFailed := by
  have henc : buffer.drop 28 = [] := List.drop_eq_nil_of_le (by omega)
  unfold postHydrate decryptPromise
  rw [henc]
  by_cases h1 : (buffer.take 12).length = 0
  · rw [if_pos h1]
    right; left; rfl
  · rw [if_neg h1]
    by_cases h2 : validTagLength ((buffer.drop 12).take 16).length = false
    · rw [if_pos h2]
      right; right; left; rfl
    · rw [if_neg h2]
      by_cases h3 : (buffer.drop 12).take 16 ≠
          List.take ((buffer.drop 12).take 16).length
            (ghash (deriveKey keyMaterial) (buffer.take 12) [])
      · rw [if_pos h3]
        right; right; right; rfl
      · rw [if_neg h3]
        left; rfl

/-- C2 amended witness: a concrete 27-byte all-zero envelope is rejected (here its
15-byte tag region does not verify, so the disjunct that holds is the
authentication error). -/
theorem postHydrate_short_buffer_witness :
    (List.replicate 27 0).length < 28 ∧
      (postHydrate [9] (List.replicate 27 0) = Except.ok [] ∨
        postHydrate [9] (List.replicate 27 0) = Except.error GcmError.invalidIV ∨
        postHydrate [9] (List.replicate 27 0) = Except.error GcmError.invalidTagLength ∨
        postHydrate [9] (List.replicate 27 0) = Except.error GcmError.authFailed) :=
  ⟨by decide, postHydrate_short_buffer [9] (List.replicate 27 0) (by decide)⟩

end CryptoBufferProcessor

namespace FileStorageDriver

/-- State of one `FileStorageDriver` instance together with its target file.
`fileWatch` models the `FSWatcher` field: `none` = no handle (`undefined`),
`some true` = an open watcher, `some false` = a handle whose `close()` was called
(the field itself is never reset to `undefined` by the driver). `file` is the target
file's contents (`none` = the file does not exist). `pendingUpdate` models a pending
`fileChangeTimeout`, and `updates` counts completed `handleUpdate` invocations. -/
structure DriverState where
  isWriting : Bool
  fileWatch : Option Bool
  file : Option Buf
  pendingUpdate : Bool
  updates : Nat
deriving DecidableEq

/-- Whether the instance has a live (open) OS file watch delivering events. -/
def watchIsLive (st : DriverState) : Bool :=
  st.fileWatch = some true

/-- `FileStorageDriver.setFileWatcher`: arm a watcher only when the `fileWatch`
field is unset (`!this.fileWatch`) and the target file exists (`existsSync`). -/
def setFileWatcher (st : DriverState) : DriverState :=
  if st.fileWatch = none ∧ st.file ≠ none then {st with fileWatch := some true} else st

/-- `FileStorageDriver.unsetFileWatcher`: if a handle is present, call `close()` on
it and resolve `true`; the `fileWatch` field keeps the (now closed) handle. -/
def unsetFileWatcher (st : DriverState) : DriverState × Bool :=
  match st.fileWatch with
  | some _ => ({st with fileWatch := some false}, true)
  | none => (st, false)

/-- `FileStorageDriver.handleUnload` delegates to `unsetFileWatcher`. -/
def handleUnload (st : DriverState) : DriverState × Bool :=
  unsetFileWatcher st

/-- `FileStorageDriver.handleStore` on a buffer input (the `Buffer.isBuffer` sanity
check passes by typing): set `isWriting`, `await writeFile`, `await setFileWatcher`,
clear `isWriting`. `writeOk` is the filesystem's verdict on the write: when `false`
the `writeFile` promise rejects, the error propagates (second component `true`) and
the method stops there. -/
def handleStore (st : DriverState) (buffer : Buf) (writeOk : Bool) : DriverState × Bool :=
  if writeOk then
    ({setFileWatcher {st with isWriting := true, file := some buffer} with isWriting := false},
      false)
  else
    ({st with isWriting := true}, true)

/-- The instance states at the `await` suspension points of a successful
`handleStore`, in order: after `isWriting = true` is set (write in flight), after
`writeFile` resolved, and after `setFileWatcher` — every point at which the watcher
callback for the driver's own write can run before `isWriting` is cleared. -/
def storeWindow (st : DriverState) (buffer : Buf) : List DriverState :=
  [{st with isWriting := true},
   {st with isWriting := true, file := some buffer},
   setFileWatcher {st with isWriting := true, file := some buffer}]

/-- `FileStorageDriver.handleHydrate`: resolve the file name; when `existsSync`
holds, `readFile` it, arm the watcher and return the contents; otherwise return
`undefined`. `readFile` of an existing file succeeds in the single-threaded model. -/
def handleHydrate (st : DriverState) : Except FsError (DriverState × Option Buf) :=
  if st.file ≠ none then
    match st.file with
    | some buffer => Except.ok (setFileWatcher st, some buffer)
    | none => Except.error FsError.enoent
  else
    Except.ok (st, none)

/-- `FileStorageDriver.handleClear`: `unsetFileWatcher`, then when the file exists,
set `isWriting`, `unlink` it and clear `isWriting`. -/
def handleClear (st : DriverState) : DriverState :=
  let s1 := (unsetFileWatcher st).1
  if s1.file ≠ none then {s1 with isWriting := false, file := none} else s1

/-- `FileStorageDriver.fileWatcher` callback: when not writing and the event is a
content change, cancel any pending `fileChangeTimeout` and schedule a new debounced
`handleUpdate`; otherwise do nothing. -/
def fileWatcher (st : DriverState) (event : WatchEvent) : DriverState :=
  if st.isWriting = false ∧ event = WatchEvent.change then
    {st with pendingUpdate := true}
  else
    st

/-- The debounced `fileChangeTimeout` firing: consume the pending flag and run
`handleUpdate` (counted in `updates`). -/
def fireFileChangeTimeout (st : DriverState) : DriverState :=
  if st.pendingUpdate then {st with pendingUpdate := false, updates := st.updates + 1} else st

/-- A driver-side event-loop step that can run between caller operations: delivery
of a watch event to the callback, or the firing of a scheduled debounce timeout. -/
inductive EnvStep where
  | watch (ev : WatchEvent)
  | timeout
deriving DecidableEq

/-- Run one environment step against the driver state. -/
def envStep (st : DriverState) : EnvStep → DriverState
  | EnvStep.watch ev => fileWatcher st ev
  | EnvStep.timeout => fireFileChangeTimeout st

theorem fileWatcher_of_isWriting (st : DriverState) (ev : WatchEvent)
    (h : st.isWriting = true) : fileWatcher st ev = st := by
  unfold fileWatcher
  rw [if_neg]
  intro hc
  rw [h] at hc
  exact absurd hc.1 (by decide)

theorem foldl_envStep_of_isWriting (st : DriverState) (h : st.isWriting = true)
    (hp : st.pendingUpdate = false) :
    ∀ steps : List EnvStep, List.foldl envStep st steps = st := by
  intro steps
  induction steps with
  | nil => rfl
  | cons s ss ih =>
    cases s with
    | watch ev => simp [envStep, fileWatcher_of_isWriting st ev h, ih]
    | timeout => simp [envStep, fireFileChangeTimeout, hp, ih]

/-- C3: every state inside the write window of `store(x)` — the suspension points
between `isWriting = true` and its reset — has the writing flag set, and at such a
state the watcher callback ignores every event (in particular the change event caused
by the driver's own write): the state is unchanged and no debounced update handling
is scheduled. -/
theorem store_suppresses_own_watch_events (st : DriverState) (buffer : Buf)
    (s : DriverState) (ev : WatchEvent) (hs : s ∈ storeWindow st buffer) :
    s.isWriting = true ∧ fileWatcher s ev = s := by
  have hw : s.isWriting = true := by
    simp only [storeWindow, List.mem_cons, List.not_mem_nil, or_false] at hs
    rcases hs with h | h | h
    · rw [h]
    · rw [h]
    · rw [h]
      unfold setFileWatcher
      split
      · rfl
      · rfl
  exact ⟨hw, fileWatcher_of_isWriting s ev hw⟩

/-- C3 witness: the suppression evaluated at a concrete state, buffer and the first
window state. -/
theorem store_suppresses_own_watch_events_witness :
    (DriverState.mk true (some true) (some [7]) false 0) ∈
        storeWindow (DriverState.mk false (some true) (some [7]) false 0) [3] ∧
      fileWatcher (DriverState.mk true (some true) (some [7]) false 0) WatchEvent.change =
        DriverState.mk true (some true) (some [7]) false 0 :=
  ⟨by decide,
    (store_suppresses_own_watch_events (DriverState.mk false (some true) (some [7]) false 0) [3]
      (DriverState.mk true (some true) (some [7]) false 0) WatchEvent.change (by decide)).2⟩

/-- C4: when the resolved target file does not exist, `handleHydrate` returns the
absent value (`undefined`) rather than an error; when it exists, it returns the
file's full contents. -/
theorem handleHydrate_absent_or_contents (st : DriverState) :
    (st.file = none → handleHydrate st = Except.ok (st, none)) ∧
      (∀ b, st.file = some b → ∃ st2, handleHydrate st = Except.ok (st2, some b)) := by
  constructor
  · intro h
    unfold handleHydrate
    rw [if_neg]
    simp [h]
  · intro b h
    refine ⟨setFileWatcher st, ?_⟩
    unfold handleHydrate
    rw [if_pos (by simp [h]), h]

/-- C4 witness: hydrate on a concrete missing-file state returns the absent value,
and on a concrete existing-file state returns its contents. -/
theorem handleHydrate_absent_or_contents_witness :
    handleHydrate (DriverState.mk false none none false 0) =
        Except.ok (DriverState.mk false none none false 0, none) ∧
      ∃ st2, handleHydrate (DriverState.mk false (some true) (some [5, 6]) false 0) =
        Except.ok (st2, some [5, 6]) :=
  ⟨(handleHydrate_absent_or_contents (DriverState.mk false none none false 0)).1 rfl,
    (handleHydrate_absent_or_contents (DriverState.mk false (some true) (some [5, 6]) false 0)).2
      [5, 6] rfl⟩

/-- C8: `handleClear` leaves no live watch, leaves the target file deleted whether or
not it existed, and performs no update notification of its own: the count of
`handleUpdate` runs and the pending debounce flag are exactly as before. -/
theorem handleClear_spec (st : DriverState) :
    (handleClear st).file = none ∧
      watchIsLive (handleClear st) = false ∧
      (handleClear st).updates = st.updates ∧
      (handleClear st).pendingUpdate = st.pendingUpdate := by
  unfold handleClear unsetFileWatcher watchIsLive
  rcases st with ⟨w, fw, f, p, u⟩
  rcases fw with _ | b <;> rcases f with _ | buf <;> simp

/-- C9 (code bug): a driver armed at init (live watch on an existing file) is
disarmed by `clear()`; the next `store` succeeds (no error) and the file exists
again, yet no live watch is armed: `unsetFileWatcher` closed the `FSWatcher` but
left `this.fileWatch` set, so `setFileWatcher`'s `!this.fileWatch` guard keeps it
from ever re-arming. The same holds with `handleUnload` in place of `handleClear`. -/
theorem store_after_clear_leaves_watch_dead :
    watchIsLive (DriverState.mk false (some true) (some [1]) false 0) = true ∧
      (handleStore (handleClear (DriverState.mk false (some true) (some [1]) false 0))
        [2] true).2 = false ∧
      (handleStore (handleClear (DriverState.mk false (some true) (some [1]) false 0))
        [2] true).1.file = some [2] ∧
      watchIsLive (handleStore (handleClear (DriverState.mk false (some true) (some [1]) false 0))
        [2] true).1 = false ∧
      (handleStore (handleUnload (DriverState.mk false (some true) (some [1]) false 0)).1
        [2] true).2 = false ∧
      watchIsLive (handleStore (handleUnload (DriverState.mk false (some true) (some [1]) false 0)).1
        [2] true).1 = false := by
  decide

end FileStorageDriver

namespace FileUpdateNotify

/-- A JavaScript `Date` as observed through `getTime()`: either a valid date with a
millisecond value, or an Invalid Date whose `getTime()` is `NaN`. -/
inductive JsDate where
  | invalid
  | time (ms : Int)
deriving DecidableEq

/-- The JS strict-inequality test `this.currentFileTimeStamp?.getTime() !== timeStamp.getTime()`
used by the watcher: an undefined cache (`none`), or `NaN` on either side, always
differs (`NaN !== NaN` is true in JS). -/
def tsDiffers (cache : Option JsDate) (ts : JsDate) : Bool :=
  match cache, ts with
  | some (JsDate.time m), JsDate.time n => decide (m ≠ n)
  | _, _ => true

/-- Numeric value of a string of decimal digit characters. -/
def digitsToNat (ds : List Char) : Nat :=
  ds.foldl (fun a c => a * 10 + (c.toNat - 48)) 0

/-- Modelled from the JavaScript runtime (not repository code):
`new Date(parseInt(content, 10))` as used by `getFileTimestamp`. `parseInt` reads an
optional sign and a longest prefix of decimal digits; with no digits it returns
`NaN`, giving an Invalid Date. -/
def parseIntBase10 (s : String) : JsDate :=
  match s.data with
  | [] => JsDate.invalid
  | c :: rest =>
    if c = Char.ofNat 45 then
      match rest.takeWhile Char.isDigit with
      | [] => JsDate.invalid
      | ds => JsDate.time (-(digitsToNat ds : Int))
    else
      match (c :: rest).takeWhile Char.isDigit with
      | [] => JsDate.invalid
      | ds => JsDate.time (digitsToNat ds)

/-- `FileUpdateNotify.getFileTimestamp`: `readFile` the notify file and parse it;
reading a nonexistent file rejects. -/
def getFileTimestamp (file : Option String) : Except FsError JsDate :=
  match file with
  | some content => Except.ok (parseIntBase10 content)
  | none => Except.error FsError.enoent

/-- State of one `FileUpdateNotify` instance together with its notify file.
`fileWatch` models the `FSWatcher` field, which this class resets to `undefined` on
unset, so a plain `Bool` suffices; `file` is the notify file's content; `emitted` is
the sequence of `update` events emitted to local listeners. -/
structure NotifyState where
  isWriting : Bool
  fileWatch : Bool
  file : Option String
  currentFileTimeStamp : Option JsDate
  emitted : List JsDate
deriving DecidableEq

/-- `FileUpdateNotify.notifyUpdate(timeStamp)`: cache the timestamp, set
`isWriting`, `await writeFile(name, timeStamp.getTime().toString())`, clear
`isWriting`. `writeOk` is the filesystem's verdict on the write: when `false` the
promise rejects (second component `true`) and `isWriting` is never cleared. -/
def notifyUpdate (st : NotifyState) (t : Int) (writeOk : Bool) : NotifyState × Bool :=
  if writeOk then
    ({ st with
        currentFileTimeStamp := some (JsDate.time t)
        file := some (toString t)
        isWriting := false }, false)
  else
    ({st with currentFileTimeStamp := some (JsDate.time t), isWriting := true}, true)

/-- The instance states at the `await` suspension point of a successful
`notifyUpdate` — while the write is in flight and after it lands, before
`isWriting` is cleared. -/
def notifyUpdateWindow (st : NotifyState) (t : Int) : List NotifyState :=
  [{st with currentFileTimeStamp := some (JsDate.time t), isWriting := true},
   { st with
      currentFileTimeStamp := some (JsDate.time t)
      isWriting := true
      file := some (toString t) }]

/-- `FileUpdateNotify.fileWatcher` callback: only when a watcher is armed, the
instance is not writing and the event is a content change, re-read the file; a read
failure is caught (logged, no state change); otherwise emit an `update` carrying the
parsed timestamp, and update the cache, exactly when the timestamp differs from the
cached one under JS strict inequality. -/
def fileWatcher (st : NotifyState) (event : WatchEvent) : NotifyState :=
  if st.fileWatch = true ∧ st.isWriting = false ∧ event = WatchEvent.change then
    match getFileTimestamp st.file with
    | Except.error _ => st
    | Except.ok ts =>
      if tsDiffers st.currentFileTimeStamp ts then
        {st with currentFileTimeStamp := some ts, emitted := st.emitted ++ [ts]}
      else
        st
  else
    st

/-- `FileUpdateNotify.unsetFileWatcher`: close and clear the watcher field when
present, resolving whether one was open. -/
def unsetFileWatcher (st : NotifyState) : NotifyState × Bool :=
  if st.fileWatch then ({st with fileWatch := false}, true) else (st, false)

/-- `fs/promises` `unlink` on the notify file: deletes an existing file, rejects
with `ENOENT` when the file does not exist. -/
def unlinkFs (file : Option String) : Except FsError (Option String) :=
  match file with
  | some _ => Except.ok none
  | none => Except.error FsError.enoent

/-- `FileUpdateNotify.unload`: `unsetFileWatcher`, then `unlink` the notify file
only when `existsSync` reports it present. -/
def unload (st : NotifyState) : Except FsError NotifyState :=
  let s1 := (unsetFileWatcher st).1
  if s1.file ≠ none then
    match unlinkFs s1.file with
    | Except.ok f2 => Except.ok {s1 with file := f2}
    | Except.error e => Except.error e
  else
    Except.ok s1

theorem notify_fileWatcher_of_isWriting (st : NotifyState) (ev : WatchEvent)
    (h : st.isWriting = true) : fileWatcher st ev = st := by
  unfold fileWatcher
  rw [if_neg]
  intro hc
  rw [h] at hc
  exact absurd hc.2.1 (by decide)

theorem foldl_notify_fileWatcher_of_isWriting (st : NotifyState) (h : st.isWriting = true) :
    ∀ evs : List WatchEvent, List.foldl fileWatcher st evs = st := by
  intro evs
  induction evs with
  | nil => rfl
  | cons ev evs ih => simp [notify_fileWatcher_of_isWriting st ev h, ih]

/-- C5: `notifyUpdate(t)` (successful write) leaves the decimal millisecond encoding
of `t` as the file's entire content, caches `t` as the last-seen timestamp, emits no
local `update` event, and at every suspension point of the write the writing flag is
set, so the watcher callback ignores the events of the instance's own write. -/
theorem notifyUpdate_spec (st : NotifyState) (t : Int) :
    (notifyUpdate st t true).1.file = some (toString t) ∧
      (notifyUpdate st t true).1.currentFileTimeStamp = some (JsDate.time t) ∧
      (notifyUpdate st t true).1.emitted = st.emitted ∧
      (∀ s, s ∈ notifyUpdateWindow st t →
        s.isWriting = true ∧ ∀ ev, fileWatcher s ev = s) := by
  refine ⟨rfl, rfl, rfl, ?_⟩
  intro s hs
  have hw : s.isWriting = true := by
    simp only [notifyUpdateWindow, List.mem_cons, List.not_mem_nil, or_false] at hs
    rcases hs with h | h
    · rw [h]
    · rw [h]
  exact ⟨hw, fun ev => notify_fileWatcher_of_isWriting s ev hw⟩

/-- C5 witness: `notifyUpdate` evaluated at a concrete state and timestamp, and the
suppression at the first window state. -/
theorem notifyUpdate_spec_witness :
    (notifyUpdate (NotifyState.mk false true (some (toString (0 : Int))) none []) 10 true).1.file =
        some (toString (10 : Int)) ∧
      (notifyUpdate (NotifyState.mk false true (some (toString (0 : Int))) none []) 10 true).1.emitted =
        [] ∧
      fileWatcher (NotifyState.mk true true (some (toString (0 : Int)))
          (some (JsDate.time 10)) []) WatchEvent.change =
        NotifyState.mk true true (some (toString (0 : Int))) (some (JsDate.time 10)) [] :=
  ⟨(notifyUpdate_spec (NotifyState.mk false true (some (toString (0 : Int))) none []) 10).1,
    (notifyUpdate_spec (NotifyState.mk false true (some (toString (0 : Int))) none []) 10).2.2.1,
    ((notifyUpdate_spec (NotifyState.mk false true (some (toString (0 : Int))) none []) 10).2.2.2
      (NotifyState.mk true true (some (toString (0 : Int))) (some (JsDate.time 10)) [])
      (by decide)).2 WatchEvent.change⟩

/-- C6: on a content-change event with a watcher armed and the instance not writing,
the callback re-reads the file; it emits an `update` carrying the parsed timestamp
and updates the cache exactly when that timestamp differs (JS strict inequality)
from the cached value, and otherwise changes nothing. -/
theorem fileWatcher_emits_iff_differs (st : NotifyState) (content : String)
    (hw : st.fileWatch = true) (hnw : st.isWriting = false) (hf : st.file = some content) :
    (tsDiffers st.currentFileTimeStamp (parseIntBase10 content) = true →
        fileWatcher st WatchEvent.change =
          { st with
              currentFileTimeStamp := some (parseIntBase10 content)
              emitted := st.emitted ++ [parseIntBase10 content] }) ∧
      (tsDiffers st.currentFileTimeStamp (parseIntBase10 content) = false →
        fileWatcher st WatchEvent.change = st) ∧
      ((fileWatcher st WatchEvent.change).emitted ≠ st.emitted →
        tsDiffers st.currentFileTimeStamp (parseIntBase10 content) = true) := by
  have hbase : fileWatcher st WatchEvent.change =
      if tsDiffers st.currentFileTimeStamp (parseIntBase10 content) then
        { st with
            currentFileTimeStamp := some (parseIntBase10 content)
            emitted := st.emitted ++ [parseIntBase10 content] }
      else st := by
    unfold fileWatcher
    rw [if_pos ⟨hw, hnw, rfl⟩, hf]
    rfl
  refine ⟨?_, ?_, ?_⟩
  · intro hd
    rw [hbase, if_pos hd]
  · intro hd
    rw [hbase, hd]
    rfl
  · intro hne
    by_cases hd : tsDiffers st.currentFileTimeStamp (parseIntBase10 content) = true
    · exact hd
    · exfalso
      apply hne
      rw [hbase, if_neg (by simp [hd])]

/-- C6 witness: a concrete not-writing armed instance whose file holds `20` while the
cache holds `10` emits exactly one `update` carrying 20 and re-caches it. -/
theorem fileWatcher_emits_iff_differs_witness :
    fileWatcher (NotifyState.mk false true (some (toString (20 : Int)))
        (some (JsDate.time 10)) []) WatchEvent.change =
      NotifyState.mk false true (some (toString (20 : Int)))
        (some (parseIntBase10 (toString (20 : Int)))) [parseIntBase10 (toString (20 : Int))] :=
  (fileWatcher_emits_iff_differs
    (NotifyState.mk false true (some (toString (20 : Int))) (some (JsDate.time 10)) [])
    (toString (20 : Int)) rfl rfl rfl).1 (by decide)

/-- C7: `unload` succeeds on every state, and calling it again on the resulting
state succeeds too with no file-deletion error — the second call finds the watcher
cleared and the file absent, and its `existsSync` guard skips the `unlink`. -/
theorem unload_idempotent (st : NotifyState) :
    ∃ st1, unload st = Except.ok st1 ∧ unload st1 = Except.ok st1 := by
  refine ⟨{st with fileWatch := false, file := none}, ?_, ?_⟩
  · rcases st with ⟨w, fw, f, ts, em⟩
    rcases f with _ | content <;> rcases fw with _ | _ <;>
      simp [unload, unsetFileWatcher, unlinkFs]
  · simp [unload, unsetFileWatcher]

end FileUpdateNotify

/-- C10 counterexample: a driver whose watcher debounce is already pending when
`handleStore`'s write rejects still runs `handleUpdate` when that timeout fires —
the timeout callback does not consult `isWriting` — so an external-update
notification is emitted while the writing flag is still stuck and no successful
store has intervened, contrary to the claim's "no external-update notification is
ever emitted until a later successful store or notifyUpdate clears the flag". -/
theorem pending_debounce_fires_after_failed_store :
    (FileStorageDriver.handleStore
        (FileStorageDriver.DriverState.mk false (some true) (some [1]) true 0)
        [2] false).1.isWriting = true ∧
      (FileStorageDriver.handleStore
        (FileStorageDriver.DriverState.mk false (some true) (some [1]) true 0)
        [2] false).2 = true ∧
      (FileStorageDriver.envStep
        (FileStorageDriver.handleStore
          (FileStorageDriver.DriverState.mk false (some true) (some [1]) true 0)
          [2] false).1
        FileStorageDriver.EnvStep.timeout).updates = 1 ∧
      (FileStorageDriver.envStep
        (FileStorageDriver.handleStore
          (FileStorageDriver.DriverState.mk false (some true) (some [1]) true 0)
          [2] false).1
        FileStorageDriver.EnvStep.timeout).isWriting = true := by
  decide

/-- C10 amended: when the underlying file write rejects inside
`FileStorageDriver.handleStore` or `FileUpdateNotify.notifyUpdate`, the error
propagates to the caller and the writing flag remains set (there is no try/finally),
so afterwards every file-change event is ignored — no state change and nothing newly
scheduled or emitted; for the driver, provided no debounced update was already
pending at the failure, no `handleUpdate` ever fires — until a later successful
`handleStore` / `notifyUpdate` clears the flag (a debounce scheduled before the
failure still fires). -/
theorem write_failure_leaves_writing_flag_set (st : FileStorageDriver.DriverState)
    (buffer b2 : Buf) (hp : st.pendingUpdate = false)
    (steps : List FileStorageDriver.EnvStep)
    (ns : FileUpdateNotify.NotifyState) (t t2 : Int) (nevs : List WatchEvent) :
    (FileStorageDriver.handleStore st buffer false).2 = true ∧
      (FileStorageDriver.handleStore st buffer false).1.isWriting = true ∧
      List.foldl FileStorageDriver.envStep
          (FileStorageDriver.handleStore st buffer false).1 steps =
        (FileStorageDriver.handleStore st buffer false).1 ∧
      (List.foldl FileStorageDriver.envStep
          (FileStorageDriver.handleStore st buffer false).1 steps).updates = st.updates ∧
      (FileStorageDriver.handleStore
        (FileStorageDriver.handleStore st buffer false).1 b2 true).1.isWriting = false ∧
      (FileUpdateNotify.notifyUpdate ns t false).2 = true ∧
      (FileUpdateNotify.notifyUpdate ns t false).1.isWriting = true ∧
      List.foldl FileUpdateNotify.fileWatcher
          (FileUpdateNotify.notifyUpdate ns t false).1 nevs =
        (FileUpdateNotify.notifyUpdate ns t false).1 ∧
      (List.foldl FileUpdateNotify.fileWatcher
          (FileUpdateNotify.notifyUpdate ns t false).1 nevs).emitted = ns.emitted ∧
      (FileUpdateNotify.notifyUpdate
        (FileUpdateNotify.notifyUpdate ns t false).1 t2 true).1.isWriting = false := by
  have hfold : List.foldl FileStorageDriver.envStep
      (FileStorageDriver.handleStore st buffer false).1 steps =
      (FileStorageDriver.handleStore st buffer false).1 :=
    FileStorageDriver.foldl_envStep_of_isWriting
      (FileStorageDriver.handleStore st buffer false).1 rfl hp steps
  have hnfold : List.foldl FileUpdateNotify.fileWatcher
      (FileUpdateNotify.notifyUpdate ns t false).1 nevs =
      (FileUpdateNotify.notifyUpdate ns t false).1 :=
    FileUpdateNotify.foldl_notify_fileWatcher_of_isWriting
      (FileUpdateNotify.notifyUpdate ns t false).1 rfl nevs
  refine ⟨rfl, rfl, hfold, ?_, rfl, rfl, rfl, hnfold, ?_, rfl⟩
  · rw [hfold]
    rfl
  · rw [hnfold]
    rfl

/-- C10 witness: the failed-write behavior evaluated at a concrete driver state with
no pending debounce, concrete notify state, and concrete event sequences. -/
theorem write_failure_leaves_writing_flag_set_witness :
    (FileStorageDriver.DriverState.mk false (some true) (some [1]) false 0).pendingUpdate =
        false ∧
      (FileStorageDriver.handleStore
        (FileStorageDriver.DriverState.mk false (some true) (some [1]) false 0)
        [2] false).1.isWriting = true ∧
      (List.foldl FileStorageDriver.envStep
        (FileStorageDriver.handleStore
          (FileStorageDriver.DriverState.mk false (some true) (some [1]) false 0) [2] false).1
        [FileStorageDriver.EnvStep.watch WatchEvent.change,
          FileStorageDriver.EnvStep.timeout]).updates = 0 :=
  ⟨rfl,
    (write_failure_leaves_writing_flag_set
      (FileStorageDriver.DriverState.mk false (some true) (some [1]) false 0) [2] [3] rfl
      [FileStorageDriver.EnvStep.watch WatchEvent.change, FileStorageDriver.EnvStep.timeout]
      (FileUpdateNotify.NotifyState.mk false true none none []) 1 2 [WatchEvent.change]).2.1,
    (write_failure_leaves_writing_flag_set
      (FileStorageDriver.DriverState.mk false (some true) (some [1]) false 0) [2] [3] rfl
      [FileStorageDriver.EnvStep.watch WatchEvent.change, FileStorageDriver.EnvStep.timeout]
      (FileUpdateNotify.NotifyState.mk false true none none []) 1 2 [WatchEvent.change]).2.2.2.1⟩
